import Mathlib

/-
Verification development for the pyddq binding (src/python/pyddq/core.py) of
drunken-data-quality, together with a model of the engine-side check object
(de.frosner.ddq.core.Check) that the binding forwards to.  The engine itself is
not part of the reviewed sources, so its behaviour is modelled from the
specification (spec.md) and from the console output pinned by the integration
tests (src/python/tests/integration/test_constraints.py).

The Python object model is embedded shallowly: a Check instance is its
attribute dictionary, exactly the attributes that __init__ assigns
(_dataFrame, _jvm, _displayName, jvmCheck).  Class-level properties
(dataFrame, name, cacheMethod, id) are Lean functions that perform the same
attribute lookups the property bodies perform; looking up an attribute that
is neither an instance attribute nor a class property yields an
AttributeError, as in Python.  Fallible Python code is embedded in
Except PyError.
-/

namespace DDQ

/-- A cell of a tabular data source: SQL-style NULL, an integer, or a string.
These are the value shapes exercised by the integration tests. -/
inductive Cell where
  | null : Cell
  | int : Int → Cell
  | str : String → Cell
deriving DecidableEq

/-- A tabular data source: an ordered schema of (column name, column type)
pairs and a list of rows.  Stands for the Spark DataFrame handle that the
binding borrows (spec section 3, DataSource). -/
structure DataFrame where
  schema : List (String × String)
  rows : List (List Cell)
deriving DecidableEq

/-- The schema rendering used as default display name by the engine
(spec section 6, toDisplayString): for example [_1: bigint, _2: string]. -/
def DataFrame.toDisplayString (df : DataFrame) : String :=
  "[" ++ String.intercalate ", " (df.schema.map fun p => p.1 ++ ": " ++ p.2) ++ "]"

/-- The Python str() rendering of a Spark DataFrame handle, used by the
wrapper property name: DataFrame[_1: bigint, _2: string]. -/
def DataFrame.pyStr (df : DataFrame) : String :=
  "DataFrame" ++ df.toDisplayString

/-- Index of a column name in the schema, if present. -/
def DataFrame.colIndex (df : DataFrame) (c : String) : Option Nat :=
  df.schema.findIdx? fun p => p.1 == c

/-- The cells of column i, one per row (missing cells read as null). -/
def DataFrame.colCells (df : DataFrame) (i : Nat) : List Cell :=
  df.rows.map fun r => r.getD i Cell.null

/-- The declarative constraint variants of the engine (spec section 3,
Constraint). -/
inductive Constraint where
  | uniqueKey : List String → Constraint
  | neverNull : String → Constraint
  | alwaysNull : String → Constraint
  | convertibleTo : String → String → Constraint
  | formattedAsDate : String → String → Constraint
  | anyOf : String → List Cell → Constraint
  | matchingRegex : String → String → Constraint
  | functionalDependency : List String → List String → Constraint
  | foreignKey : DataFrame → List (String × String) → Constraint
  | joinableWith : DataFrame → List (String × String) → Constraint
  | satisfies : String → Constraint
deriving DecidableEq

/-- The engine-side check object, as constructed by the binding:
de.frosner.ddq.core.Check(dataFrame, displayName, cacheMethod, constraints, id). -/
structure JvmCheck where
  dataFrame : DataFrame
  displayName : Option String
  cacheMethod : Option String
  constraints : List Constraint
  id : String
deriving DecidableEq

/-- Exceptions the embedded Python code can raise: AttributeError with the
missing attribute name, TypeError, and the construction error raised by the
engine when a constraint is built from invalid (empty) arguments
(spec section 7, ConstructionError). -/
inductive PyError where
  | attributeError : String → PyError
  | typeError : PyError
  | constructionError : PyError
deriving DecidableEq

/-- Modelled from the spec: each engine-side constraint-adding method
validates that its collection-valued arguments are non-empty
(spec section 4.2: each addX method validates its arguments are non-empty,
e.g. UniqueKey requires at least one column). -/
def Constraint.argsNonEmpty : Constraint → Bool
  | .uniqueKey cols => !cols.isEmpty
  | .anyOf _ allowed => !allowed.isEmpty
  | .functionalDependency det dep => !det.isEmpty && !dep.isEmpty
  | .foreignKey _ keyMaps => !keyMaps.isEmpty
  | .joinableWith _ keyMaps => !keyMaps.isEmpty
  | _ => true

/-- Modelled from the spec: the engine-side Check is not under src/.
Per spec sections 3 and 4.2, adding a constraint validates the arguments,
then returns a new check with the same dataSource, displayName and
cacheMethod and the constraint sequence extended by one at the end;
invalid (empty) arguments raise a ConstructionError before any query runs. -/
def JvmCheck.add (jc : JvmCheck) (c : Constraint) : Except PyError JvmCheck :=
  if c.argsNonEmpty then
    .ok { jc with constraints := jc.constraints ++ [c] }
  else
    .error .constructionError

def JvmCheck.hasUniqueKey (jc : JvmCheck) (columnName : String)
    (columnNames : List String) : Except PyError JvmCheck :=
  jc.add (.uniqueKey (columnName :: columnNames))

def JvmCheck.isNeverNull (jc : JvmCheck) (columnName : String) : Except PyError JvmCheck :=
  jc.add (.neverNull columnName)

def JvmCheck.isAlwaysNull (jc : JvmCheck) (columnName : String) : Except PyError JvmCheck :=
  jc.add (.alwaysNull columnName)

def JvmCheck.isConvertibleTo (jc : JvmCheck) (columnName targetType : String) :
    Except PyError JvmCheck :=
  jc.add (.convertibleTo columnName targetType)

def JvmCheck.isFormattedAsDate (jc : JvmCheck) (columnName dateFormat : String) :
    Except PyError JvmCheck :=
  jc.add (.formattedAsDate columnName dateFormat)

def JvmCheck.isAnyOf (jc : JvmCheck) (columnName : String) (allowed : List Cell) :
    Except PyError JvmCheck :=
  jc.add (.anyOf columnName allowed)

def JvmCheck.isMatchingRegex (jc : JvmCheck) (columnName regexp : String) :
    Except PyError JvmCheck :=
  jc.add (.matchingRegex columnName regexp)

def JvmCheck.hasFunctionalDependency (jc : JvmCheck)
    (determinantSet dependentSet : List String) : Except PyError JvmCheck :=
  jc.add (.functionalDependency determinantSet dependentSet)

def JvmCheck.hasForeignKey (jc : JvmCheck) (referenceTable : DataFrame)
    (keyMap : String × String) (keyMaps : List (String × String)) :
    Except PyError JvmCheck :=
  jc.add (.foreignKey referenceTable (keyMap :: keyMaps))

def JvmCheck.isJoinableWith (jc : JvmCheck) (referenceTable : DataFrame)
    (keyMap : String × String) (keyMaps : List (String × String)) :
    Except PyError JvmCheck :=
  jc.add (.joinableWith referenceTable (keyMap :: keyMaps))

def JvmCheck.satisfies (jc : JvmCheck) (constraint : String) : Except PyError JvmCheck :=
  jc.add (.satisfies constraint)

/-- A Python value that can sit in a Check instance attribute: the borrowed
DataFrame handle, an optional display-name string, the py4j JVM gateway
(opaque), or an engine-side check handle. -/
inductive PyVal where
  | dfVal : DataFrame → PyVal
  | optStrVal : Option String → PyVal
  | jvmGateway : PyVal
  | jvmCheckVal : JvmCheck → PyVal
deriving DecidableEq

/-- A pyddq Check instance: its attribute dictionary, in assignment order. -/
structure Check where
  attrs : List (String × PyVal)
deriving DecidableEq

/-- The string rendering of the uuid4 function object itself.  core.py line 15
computes id = str(uuid4) without invoking uuid4, so the id is the repr of the
function reference; within one process this is one fixed string (the memory
address is elided here), identical for every Check constructed. -/
def strUuid4 : String := "<function uuid4>"

/-- The engine-side check that __init__ builds when no jvmCheck handle is
passed: empty display name, empty cache method, empty constraint list, and
the constant string str(uuid4) as id (core.py lines 12-23). -/
def freshJvmCheck (df : DataFrame) : JvmCheck :=
  { dataFrame := df
    displayName := none
    cacheMethod := none
    constraints := []
    id := strUuid4 }

/-- The engine-side handle stored by __init__: the supplied one if truthy,
else a freshly constructed engine check (core.py lines 16-23). -/
def initJvmCheck (df : DataFrame) (jvmCheck : Option JvmCheck) : JvmCheck :=
  match jvmCheck with
  | some j => j
  | none => freshJvmCheck df

/-- Check.__init__(dataFrame, displayName=None, jvmCheck=None): assigns the
instance attributes _dataFrame, _jvm, _displayName and jvmCheck, in that
order, and nothing else (core.py lines 7-23).  In particular _cacheMethod
and _id are never assigned. -/
def Check.init (dataFrame : DataFrame) (displayName : Option String)
    (jvmCheck : Option JvmCheck) : Check :=
  { attrs := [("_dataFrame", PyVal.dfVal dataFrame),
              ("_jvm", PyVal.jvmGateway),
              ("_displayName", PyVal.optStrVal displayName),
              ("jvmCheck", PyVal.jvmCheckVal (initJvmCheck dataFrame jvmCheck))] }

/-- Instance attribute lookup. -/
def Check.getattr (c : Check) (a : String) : Option PyVal :=
  c.attrs.lookup a

/-- Property dataFrame (core.py lines 24-26): returns self._dataFrame. -/
def Check.dataFrame (c : Check) : Except PyError DataFrame :=
  match c.getattr "_dataFrame" with
  | some (.dfVal d) => .ok d
  | some _ => .error .typeError
  | none => .error (.attributeError "_dataFrame")

/-- Property name (core.py lines 28-30): self._displayName or
str(self.dataFrame).  The Python or falls through on falsy values, so both
None and the empty string yield the str() rendering of the DataFrame. -/
def Check.name (c : Check) : Except PyError String :=
  match c.getattr "_displayName" with
  | some (.optStrVal (some s)) =>
      if s = "" then (c.dataFrame).map DataFrame.pyStr else .ok s
  | some (.optStrVal none) => (c.dataFrame).map DataFrame.pyStr
  | some _ => .error .typeError
  | none => .error (.attributeError "_displayName")

/-- Property cacheMethod (core.py lines 32-34): returns self._cacheMethod,
an attribute that __init__ never assigns. -/
def Check.cacheMethod (c : Check) : Except PyError (Option String) :=
  match c.getattr "_cacheMethod" with
  | some (.optStrVal s) => .ok s
  | some _ => .error .typeError
  | none => .error (.attributeError "_cacheMethod")

/-- The stored engine-side handle self.jvmCheck. -/
def Check.jvmCheckAttr (c : Check) : Except PyError JvmCheck :=
  match c.getattr "jvmCheck" with
  | some (.jvmCheckVal j) => .ok j
  | some _ => .error .typeError
  | none => .error (.attributeError "jvmCheck")

/-- Property id (core.py lines 36-38): self._id or str(self.jvmCheck.id()).
The attribute _id is never assigned, so the first read already raises. -/
def Check.id (c : Check) : Except PyError String :=
  match c.getattr "_id" with
  | some (.optStrVal (some s)) =>
      if s = "" then (c.jvmCheckAttr).map JvmCheck.id else .ok s
  | some (.optStrVal none) => (c.jvmCheckAttr).map JvmCheck.id
  | some _ => .error .typeError
  | none => .error (.attributeError "_id")

/-- The lookup self.displayName performed by every constraint-adding method
(core.py lines 45-109): displayName is neither a class property (the class
defines name, not displayName) nor an instance attribute, so the lookup goes
to the instance dictionary and fails. -/
def Check.displayNameLookup (c : Check) : Except PyError (Option String) :=
  match c.getattr "displayName" with
  | some (.optStrVal s) => .ok s
  | some _ => .error .typeError
  | none => .error (.attributeError "displayName")

/-- Check.hasUniqueKey (core.py lines 40-45): forward to the engine, then
build the derived wrapper Check(self.dataFrame, self.displayName, jvmCheck).
Argument evaluation order follows Python: the engine call happens first,
then self.dataFrame, then self.displayName. -/
def Check.hasUniqueKey (c : Check) (columnName : String) (columnNames : List String) :
    Except PyError Check := do
  let jc ← c.jvmCheckAttr
  let jvmCheck ← jc.hasUniqueKey columnName columnNames
  let df ← c.dataFrame
  let dn ← c.displayNameLookup
  pure (Check.init df dn (some jvmCheck))

/-- Check.isNeverNull (core.py lines 47-49). -/
def Check.isNeverNull (c : Check) (columnName : String) : Except PyError Check := do
  let jc ← c.jvmCheckAttr
  let jvmCheck ← jc.isNeverNull columnName
  let df ← c.dataFrame
  let dn ← c.displayNameLookup
  pure (Check.init df dn (some jvmCheck))

/-- Check.isAlwaysNull (core.py lines 51-53). -/
def Check.isAlwaysNull (c : Check) (columnName : String) : Except PyError Check := do
  let jc ← c.jvmCheckAttr
  let jvmCheck ← jc.isAlwaysNull columnName
  let df ← c.dataFrame
  let dn ← c.displayNameLookup
  pure (Check.init df dn (some jvmCheck))

/-- Check.isConvertibleTo (core.py lines 55-60); the target type travels as
its type name. -/
def Check.isConvertibleTo (c : Check) (columnName targetType : String) :
    Except PyError Check := do
  let jc ← c.jvmCheckAttr
  let jvmCheck ← jc.isConvertibleTo columnName targetType
  let df ← c.dataFrame
  let dn ← c.displayNameLookup
  pure (Check.init df dn (some jvmCheck))

/-- Check.isFormattedAsDate (core.py lines 62-65). -/
def Check.isFormattedAsDate (c : Check) (columnName dateFormat : String) :
    Except PyError Check := do
  let jc ← c.jvmCheckAttr
  let jvmCheck ← jc.isFormattedAsDate columnName dateFormat
  let df ← c.dataFrame
  let dn ← c.displayNameLookup
  pure (Check.init df dn (some jvmCheck))

/-- Check.isAnyOf (core.py lines 67-72). -/
def Check.isAnyOf (c : Check) (columnName : String) (allowed : List Cell) :
    Except PyError Check := do
  let jc ← c.jvmCheckAttr
  let jvmCheck ← jc.isAnyOf columnName allowed
  let df ← c.dataFrame
  let dn ← c.displayNameLookup
  pure (Check.init df dn (some jvmCheck))

/-- Check.isMatchingRegex (core.py lines 74-76). -/
def Check.isMatchingRegex (c : Check) (columnName regexp : String) :
    Except PyError Check := do
  let jc ← c.jvmCheckAttr
  let jvmCheck ← jc.isMatchingRegex columnName regexp
  let df ← c.dataFrame
  let dn ← c.displayNameLookup
  pure (Check.init df dn (some jvmCheck))

/-- Check.hasFunctionalDependency (core.py lines 78-83). -/
def Check.hasFunctionalDependency (c : Check) (determinantSet dependentSet : List String) :
    Except PyError Check := do
  let jc ← c.jvmCheckAttr
  let jvmCheck ← jc.hasFunctionalDependency determinantSet dependentSet
  let df ← c.dataFrame
  let dn ← c.displayNameLookup
  pure (Check.init df dn (some jvmCheck))

/-- Check.hasForeignKey (core.py lines 85-94). -/
def Check.hasForeignKey (c : Check) (referenceTable : DataFrame)
    (keyMap : String × String) (keyMaps : List (String × String)) :
    Except PyError Check := do
  let jc ← c.jvmCheckAttr
  let jvmCheck ← jc.hasForeignKey referenceTable keyMap keyMaps
  let df ← c.dataFrame
  let dn ← c.displayNameLookup
  pure (Check.init df dn (some jvmCheck))

/-- Check.isJoinableWith (core.py lines 96-105). -/
def Check.isJoinableWith (c : Check) (referenceTable : DataFrame)
    (keyMap : String × String) (keyMaps : List (String × String)) :
    Except PyError Check := do
  let jc ← c.jvmCheckAttr
  let jvmCheck ← jc.isJoinableWith referenceTable keyMap keyMaps
  let df ← c.dataFrame
  let dn ← c.displayNameLookup
  pure (Check.init df dn (some jvmCheck))

/-- Check.satisfies (core.py lines 107-109). -/
def Check.satisfies (c : Check) (constraint : String) : Except PyError Check := do
  let jc ← c.jvmCheckAttr
  let jvmCheck ← jc.satisfies constraint
  let df ← c.dataFrame
  let dn ← c.displayNameLookup
  pure (Check.init df dn (some jvmCheck))

/-- A Python-side reporter object.  console is the ConsoleReporter that run
falls back to; custom tags stand for any other reporter instance. -/
inductive Reporter where
  | console : Reporter
  | custom : Nat → Reporter
deriving DecidableEq

/-- The engine-side reporter handle produced by getJvmReporter. -/
structure JvmReporter where
  reporter : Reporter
deriving DecidableEq

def Reporter.getJvmReporter (r : Reporter) : JvmReporter :=
  { reporter := r }

/-- The black-box query capabilities of the data-source collaborator
(spec sections 1 and 6): regex matching, date parsing, cast validity and
SQL-predicate evaluation are performed by the external data engine, so they
enter the model as parameters.  satisfiesViolations returns none when the
predicate fails to parse or evaluate (an Error result, spec section 4.1). -/
structure DataSourceCapabilities where
  regexMismatchCount : String → String → Nat
  dateParseFailCount : String → String → Nat
  castValid : String → String → Bool
  satisfiesViolations : String → Option Nat

/-- Verdict of one constraint (spec section 3, ConstraintResult.status). -/
inductive Status where
  | success : Status
  | failure : Status
  | error : Status
deriving DecidableEq

/-- Result of evaluating one constraint (spec section 3). -/
structure ConstraintResult where
  constraint : Constraint
  status : Status
  message : String
deriving DecidableEq

def pluralS (n : Nat) : String := if n == 1 then "" else "s"

def isAreWord (n : Nat) : String := if n == 1 then "is" else "are"

def columnsWord (cols : List String) : String :=
  if cols.length == 1 then "Column " else "Columns "

def columnsList (cols : List String) : String :=
  String.intercalate ", " cols

def isAreCols (cols : List String) : String :=
  if cols.length == 1 then " is " else " are "

def cellStr : Cell → String
  | .null => "null"
  | .int n => toString n
  | .str s => s

def setStr (cells : List Cell) : String :=
  "Set(" ++ String.intercalate ", " (cells.map cellStr) ++ ")"

/-- Project a row onto the given column indices (missing cells read as null). -/
def projectTuple (idxs : List Nat) (row : List Cell) : List Cell :=
  idxs.map fun i => row.getD i Cell.null

/-- All rows projected onto the given column indices. -/
def DataFrame.tuples (df : DataFrame) (idxs : List Nat) : List (List Cell) :=
  df.rows.map (projectTuple idxs)

/-- First-occurrence deduplication of projected tuples. -/
def distinctTuples (l : List (List Cell)) : List (List Cell) :=
  l.foldl (fun acc t => if acc.contains t then acc else acc ++ [t]) []

def keyMapStr (keyMaps : List (String × String)) : String :=
  String.intercalate ", " (keyMaps.map fun p => p.1 ++ "->" ++ p.2)

/-- Render n * 10000 / d as a percentage with two decimals, e.g. 100.00. -/
def pctStr (p : Nat) : String :=
  toString (p / 100) ++ "." ++ (if p % 100 < 10 then "0" else "") ++ toString (p % 100)

/-- Modelled from the spec: constraint compilation and interpretation
(spec section 4.1) live in the engine, which is not under src/.  Verdicts
follow the behavioural contracts of spec section 4.1; messages follow the
reference console output pinned by the integration tests.  Queries that the
engine delegates to the data-source collaborator (regex matching, date
parsing, cast checking, predicate evaluation) come from the
DataSourceCapabilities parameter.  An unresolvable column yields an
Error-status result (spec section 7, EvaluationError). -/
def Constraint.evaluate (caps : DataSourceCapabilities) (df : DataFrame) :
    Constraint → ConstraintResult
  | .uniqueKey cols =>
    match cols.mapM df.colIndex with
    | none =>
      ⟨.uniqueKey cols, .error,
        "Checking uniqueness of " ++ columnsList cols ++ " failed: column not found."⟩
    | some idxs =>
      let ts := df.tuples idxs
      let n := ((distinctTuples ts).filter fun t => 1 < ts.count t).length
      if n == 0 then
        ⟨.uniqueKey cols, .success,
          columnsWord cols ++ columnsList cols ++ isAreCols cols ++ "a key."⟩
      else
        ⟨.uniqueKey cols, .failure,
          columnsWord cols ++ columnsList cols ++ isAreCols cols ++ "not a key (" ++
            toString n ++ " non-unique tuple" ++ pluralS n ++ ")."⟩
  | .neverNull col =>
    match df.colIndex col with
    | none =>
      ⟨.neverNull col, .error, "Checking column " ++ col ++ " failed: column not found."⟩
    | some i =>
      let n := (df.colCells i).count Cell.null
      if n == 0 then
        ⟨.neverNull col, .success, "Column " ++ col ++ " is never null."⟩
      else
        ⟨.neverNull col, .failure,
          "Column " ++ col ++ " contains " ++ toString n ++ " row" ++ pluralS n ++
            " that " ++ isAreWord n ++ " null (should never be null)."⟩
  | .alwaysNull col =>
    match df.colIndex col with
    | none =>
      ⟨.alwaysNull col, .error, "Checking column " ++ col ++ " failed: column not found."⟩
    | some i =>
      let n := (df.colCells i).countP fun x => x != Cell.null
      if n == 0 then
        ⟨.alwaysNull col, .success, "Column " ++ col ++ " is always null."⟩
      else
        ⟨.alwaysNull col, .failure,
          "Column " ++ col ++ " contains " ++ toString n ++ " non-null row" ++ pluralS n ++
            " (should always be null)."⟩
  | .convertibleTo col tgt =>
    match df.schema.find? fun p => p.1 == col with
    | none =>
      ⟨.convertibleTo col tgt, .error,
        "Checking column " ++ col ++ " failed: column not found."⟩
    | some p =>
      if caps.castValid p.2 tgt then
        ⟨.convertibleTo col tgt, .success,
          "Column " ++ col ++ " can be converted from " ++ p.2 ++ " to " ++ tgt ++ "."⟩
      else
        ⟨.convertibleTo col tgt, .error,
          "Checking whether column " ++ col ++ " can be converted to " ++ tgt ++
            " failed: cannot cast " ++ p.2 ++ " to " ++ tgt ++ "."⟩
  | .formattedAsDate col fmt =>
    match df.colIndex col with
    | none =>
      ⟨.formattedAsDate col fmt, .error,
        "Checking column " ++ col ++ " failed: column not found."⟩
    | some _ =>
      let n := caps.dateParseFailCount col fmt
      if n == 0 then
        ⟨.formattedAsDate col fmt, .success,
          "Column " ++ col ++ " is formatted by " ++ fmt ++ "."⟩
      else
        ⟨.formattedAsDate col fmt, .failure,
          "Column " ++ col ++ " contains " ++ toString n ++ " row" ++ pluralS n ++
            " that " ++ isAreWord n ++ " not formatted by " ++ fmt ++ "."⟩
  | .anyOf col allowed =>
    match df.colIndex col with
    | none =>
      ⟨.anyOf col allowed, .error,
        "Checking column " ++ col ++ " failed: column not found."⟩
    | some i =>
      let n := (df.colCells i).countP fun x => !(allowed.contains x)
      if n == 0 then
        ⟨.anyOf col allowed, .success,
          "Column " ++ col ++ " contains only values in " ++ setStr allowed ++ "."⟩
      else
        ⟨.anyOf col allowed, .failure,
          "Column " ++ col ++ " contains " ++ toString n ++ " row" ++ pluralS n ++
            " that " ++ isAreWord n ++ " not in " ++ setStr allowed ++ "."⟩
  | .matchingRegex col pat =>
    match df.colIndex col with
    | none =>
      ⟨.matchingRegex col pat, .error,
        "Checking column " ++ col ++ " failed: column not found."⟩
    | some _ =>
      let n := caps.regexMismatchCount col pat
      if n == 0 then
        ⟨.matchingRegex col pat, .success, "Column " ++ col ++ " matches " ++ pat⟩
      else
        ⟨.matchingRegex col pat, .failure,
          "Column " ++ col ++ " contains " ++ toString n ++ " row" ++ pluralS n ++
            " that " ++ (if n == 1 then "does" else "do") ++ " not match " ++ pat⟩
  | .functionalDependency det dep =>
    match det.mapM df.colIndex, dep.mapM df.colIndex with
    | some di, some pi =>
      let pairs := df.rows.map fun r => (projectTuple di r, projectTuple pi r)
      let viol := ((distinctTuples (pairs.map Prod.fst)).filter fun d =>
        1 < (distinctTuples ((pairs.filter fun p => p.1 == d).map Prod.snd)).length).length
      if viol == 0 then
        ⟨.functionalDependency det dep, .success,
          columnsWord dep ++ columnsList dep ++ isAreCols dep ++
            "functionally dependent on " ++ columnsList det ++ "."⟩
      else
        ⟨.functionalDependency det dep, .failure,
          columnsWord dep ++ columnsList dep ++ isAreCols dep ++
            "not functionally dependent on " ++ columnsList det ++ " (" ++
            toString viol ++ " violating determinant tuple" ++ pluralS viol ++ ")."⟩
    | _, _ =>
      ⟨.functionalDependency det dep, .error,
        "Checking functional dependency failed: column not found."⟩
  | .foreignKey ref keyMaps =>
    match (keyMaps.map Prod.fst).mapM df.colIndex,
          (keyMaps.map Prod.snd).mapM ref.colIndex with
    | some li, some ri =>
      let lts := df.tuples li
      let rts := ref.tuples ri
      if lts.all fun t => rts.contains t then
        ⟨.foreignKey ref keyMaps, .success,
          columnsWord (keyMaps.map Prod.fst) ++ keyMapStr keyMaps ++
            " define a foreign key pointing to the reference table " ++
            ref.toDisplayString ++ "."⟩
      else
        ⟨.foreignKey ref keyMaps, .failure,
          columnsWord (keyMaps.map Prod.fst) ++ keyMapStr keyMaps ++
            " do not define a foreign key pointing to the reference table " ++
            ref.toDisplayString ++ "."⟩
    | _, _ =>
      ⟨.foreignKey ref keyMaps, .error,
        "Checking foreign key failed: column not found."⟩
  | .joinableWith ref keyMaps =>
    match (keyMaps.map Prod.fst).mapM df.colIndex,
          (keyMaps.map Prod.snd).mapM ref.colIndex with
    | some li, some ri =>
      let base := distinctTuples (df.tuples li)
      let after := base.filter fun t => (ref.tuples ri).contains t
      let b := base.length
      let a := after.length
      let p := if b == 0 then 0 else a * 10000 / b
      ⟨.joinableWith ref keyMaps, .success,
        "Key " ++ keyMapStr keyMaps ++ " can be used for joining. " ++
          "Join columns cardinality in base table: " ++ toString b ++ ". " ++
          "Join columns cardinality after joining: " ++ toString a ++
          " (" ++ pctStr p ++ "%)."⟩
    | _, _ =>
      ⟨.joinableWith ref keyMaps, .error,
        "Checking joinability failed: column not found."⟩
  | .satisfies e =>
    match caps.satisfiesViolations e with
    | none =>
      ⟨.satisfies e, .error, "Checking constraint " ++ e ++ " failed."⟩
    | some 0 =>
      ⟨.satisfies e, .success, "Constraint " ++ e ++ " is satisfied."⟩
    | some n =>
      ⟨.satisfies e, .failure,
        toString n ++ " row" ++ pluralS n ++ " did not satisfy constraint " ++ e ++ "."⟩

/-- The structured outcome of a run (spec section 3, VerificationResult):
check metadata plus one ConstraintResult per constraint, in registration
order. -/
structure VerificationResult where
  checkDisplayName : String
  columnCount : Nat
  rowCount : Nat
  constraintResults : List ConstraintResult
deriving DecidableEq

/-- Modelled from the spec: the evaluation step of engine run
(spec section 4.3, steps 1-3).  Metadata comes from the schema and row
count; the display name defaults to the schema rendering; constraints are
evaluated in registration order. -/
def JvmCheck.verificationResult (jc : JvmCheck) (caps : DataSourceCapabilities) :
    VerificationResult :=
  { checkDisplayName := jc.displayName.getD jc.dataFrame.toDisplayString
    columnCount := jc.dataFrame.schema.length
    rowCount := jc.dataFrame.rows.length
    constraintResults := jc.constraints.map (Constraint.evaluate caps jc.dataFrame) }

/-- Modelled from the spec: engine run (spec section 4.3, step 4) hands the
VerificationResult to each reporter in the supplied order.  The reporter
side effects are returned explicitly as an invocation log: one
(reporter, result) entry per report call, in call order. -/
def JvmCheck.run (jc : JvmCheck) (caps : DataSourceCapabilities)
    (reporters : List JvmReporter) :
    VerificationResult × List (JvmReporter × VerificationResult) :=
  let vr := jc.verificationResult caps
  (vr, reporters.map fun r => (r, vr))

/-- Check.run (core.py lines 111-119): a falsy reporters argument (None or
an empty sequence) is replaced by a single ConsoleReporter; the reporters
are converted in order and handed to the engine run. -/
def Check.run (c : Check) (caps : DataSourceCapabilities)
    (reporters : Option (List Reporter)) :
    Except PyError (VerificationResult × List (JvmReporter × VerificationResult)) := do
  let rs := match reporters with
    | none => [Reporter.console]
    | some [] => [Reporter.console]
    | some (r :: tl) => r :: tl
  let jvmReporters := rs.map Reporter.getJvmReporter
  let jc ← c.jvmCheckAttr
  pure (jc.run caps jvmReporters)

def statusTag : Status → String
  | .success => "SUCCESS"
  | .failure => "FAILURE"
  | .error => "ERROR"

/-- One bullet line of the console report (spec section 6). -/
def renderBullet (cr : ConstraintResult) : String :=
  "- *" ++ statusTag cr.status ++ "*: " ++ cr.message

/-- Modelled from the spec: the console report text contract
(spec section 6): a header line, a summary line, then one bullet line per
constraint result in registration order. -/
def renderReport (vr : VerificationResult) : String :=
  "**Checking " ++ vr.checkDisplayName ++ "**\n\n" ++
    "It has a total number of " ++ toString vr.columnCount ++ " columns and " ++
    toString vr.rowCount ++ " rows.\n\n" ++
    String.intercalate "\n" (vr.constraintResults.map renderBullet)

/-- Capabilities instance for concrete evaluations whose constraints do not
consult the collaborator. -/
def trivialCaps : DataSourceCapabilities :=
  { regexMismatchCount := fun _ _ => 0
    dateParseFailCount := fun _ _ => 0
    castValid := fun _ _ => true
    satisfiesViolations := fun _ => some 0 }

/-- The dataset of testHasUniqueKey: rows (1, a), (1, null), (3, c) with
schema [_1: bigint, _2: string]. -/
def dfUnique : DataFrame :=
  { schema := [("_1", "bigint"), ("_2", "string")]
    rows := [[Cell.int 1, Cell.str "a"],
             [Cell.int 1, Cell.null],
             [Cell.int 3, Cell.str "c"]] }

/-- A second, unrelated data source, for independence arguments. -/
def dfOther : DataFrame :=
  { schema := [("x", "int")]
    rows := [[Cell.int 7]] }

/-- The engine-side check built by testHasUniqueKey:
Check(df).hasUniqueKey("_1").hasUniqueKey("_1", "_2"), chained at the
engine level. -/
def check8 : Except PyError JvmCheck := do
  let jc1 ← (freshJvmCheck dfUnique).hasUniqueKey "_1" []
  jc1.hasUniqueKey "_1" ["_2"]

/-- Claim C1: the claim says every constraint-adding call on a Check returns
a new Check instance and leaves the receiver untouched.  The code contradicts
its own integration tests here: every constraint-adding method builds the
derived wrapper as Check(self.dataFrame, self.displayName, jvmCheck), but the
class defines the property name, not displayName, so the call raises
AttributeError for the attribute displayName instead of returning a Check.
This theorem evaluates the embedded code at the failing input
Check(dfUnique).isNeverNull("_1"). -/
theorem addConstraint_raises_attributeError :
    (Check.init dfUnique none none).isNeverNull "_1" =
      .error (PyError.attributeError "displayName") := rfl

/-- Claim C2: the claim says each directly constructed Check gets a freshly
generated unique id, so independently constructed Checks have different ids.
The code sets id = str(uuid4) — the rendering of the uuid4 function object
itself, not of an invocation — which is one constant string per process, so
the engine-side ids of two independently constructed Checks coincide;
moreover the wrapper property id reads self._id, which is never assigned,
and raises AttributeError.  This theorem evaluates the embedded code at two
independent constructions. -/
theorem check_ids_collide :
    (initJvmCheck dfUnique none).id = (initJvmCheck dfOther none).id
    ∧ (Check.init dfUnique none none).id = .error (PyError.attributeError "_id") :=
  ⟨rfl, rfl⟩

/-- Claim C3: a constraint-adding call with empty collection arguments raises
a construction error immediately, before any query runs against the data
source.  The engine call is the first expression each method evaluates, and
the engine (modelled from the spec) rejects empty arguments; in this
embedding no builder call touches the rows of the data source at all, only
run does.  hasUniqueKey cannot even be called without a column: its first
column is a mandatory positional parameter. -/
theorem empty_args_construction_error (df : DataFrame) (dn : Option String)
    (jco : Option JvmCheck) (det dep : List String) (col : String) :
    (Check.init df dn jco).hasFunctionalDependency [] dep =
        .error PyError.constructionError
    ∧ (Check.init df dn jco).hasFunctionalDependency det [] =
        .error PyError.constructionError
    ∧ (Check.init df dn jco).isAnyOf col [] = .error PyError.constructionError := by
  refine ⟨rfl, ?_, rfl⟩
  cases det <;> rfl

/-- Claim C4: the claim says a constraint-adding call returns a Check with
the same dataSource, displayName and cacheMethod and the constraint sequence
extended by exactly one.  The engine-side handle is indeed extended by one
constraint at the end, but the wrapper construction then raises
AttributeError for displayName (and reading cacheMethod on any wrapper also
raises, see C10), so no Check is returned.  This theorem evaluates the
embedded code at the failing input Check(dfUnique).hasUniqueKey("_1"). -/
theorem derived_check_construction_fails :
    (freshJvmCheck dfUnique).hasUniqueKey "_1" [] =
      .ok { freshJvmCheck dfUnique with constraints := [Constraint.uniqueKey ["_1"]] }
    ∧ (Check.init dfUnique none none).hasUniqueKey "_1" [] =
      .error (PyError.attributeError "displayName") :=
  ⟨rfl, rfl⟩

/-- Claim C5: calling run with the reporters argument omitted (None) or an
empty sequence reports the run through exactly one console reporter: the
invocation log contains exactly one entry, for the converted
ConsoleReporter, carrying the VerificationResult. -/
theorem run_default_console (df : DataFrame) (dn : Option String)
    (jco : Option JvmCheck) (caps : DataSourceCapabilities) :
    (Check.init df dn jco).run caps none =
      .ok ((initJvmCheck df jco).verificationResult caps,
           [(Reporter.console.getJvmReporter,
             (initJvmCheck df jco).verificationResult caps)])
    ∧ (Check.init df dn jco).run caps (some []) =
      .ok ((initJvmCheck df jco).verificationResult caps,
           [(Reporter.console.getJvmReporter,
             (initJvmCheck df jco).verificationResult caps)]) :=
  ⟨rfl, rfl⟩

/-- Claim C6: for every non-empty caller-supplied reporter sequence, the
invocation log is exactly that sequence, converted element by element in
order, each entry invoked once with the VerificationResult — no
deduplication and no reordering, so a reporter listed twice is invoked
twice. -/
theorem run_reporters_in_order (df : DataFrame) (dn : Option String)
    (jco : Option JvmCheck) (caps : DataSourceCapabilities)
    (r : Reporter) (rs : List Reporter) :
    (Check.init df dn jco).run caps (some (r :: rs)) =
      .ok ((initJvmCheck df jco).verificationResult caps,
           ((r :: rs).map Reporter.getJvmReporter).map fun j =>
             (j, (initJvmCheck df jco).verificationResult caps)) := rfl

/-- Claim C7, counterexample: the claim says a Check constructed with an
explicit displayName has that displayName as its name.  For the explicit
displayName "" the Python or falls through on the falsy empty string and
name is the str() rendering of the DataFrame instead, which is not "". -/
theorem name_ignores_empty_displayName :
    (Check.init dfUnique (some "") none).name =
        .ok "DataFrame[_1: bigint, _2: string]"
    ∧ "DataFrame[_1: bigint, _2: string]" ≠ "" := ⟨rfl, by decide⟩

/-- Claim C7, amended: a Check constructed with an explicit non-empty
displayName has that displayName as its name; a Check constructed without a
displayName, or with the empty string, has the str() rendering of its data
source (a rendering of its schema) as its name. -/
theorem name_displayName_or_schema (df : DataFrame) (dn : String)
    (jco : Option JvmCheck) :
    (Check.init df (some dn) jco).name = .ok (if dn = "" then df.pyStr else dn)
    ∧ (Check.init df none jco).name = .ok df.pyStr := by
  refine ⟨?_, rfl⟩
  have h : (Check.init df (some dn) jco).name =
      if dn = "" then Except.ok df.pyStr else Except.ok dn := rfl
  rw [h]
  split <;> rfl

/-- Claim C8: on the dataset (1, a), (1, null), (3, c), a check with
hasUniqueKey on _1 alone and then hasUniqueKey on (_1, _2) yields a Failure
citing 1 non-unique tuple followed by a Success, and the rendered console
report is exactly the header, the summary line, and one bullet line per
constraint in registration order. -/
theorem uniqueKey_test_report :
    check8.map (fun jc =>
        ((jc.verificationResult trivialCaps).constraintResults.map
            ConstraintResult.status,
         renderReport (jc.verificationResult trivialCaps))) =
      .ok ([Status.failure, Status.success],
        "**Checking [_1: bigint, _2: string]**\n\n" ++
          "It has a total number of 2 columns and 3 rows.\n\n" ++
          "- *FAILURE*: Column _1 is not a key (1 non-unique tuple).\n" ++
          "- *SUCCESS*: Columns _1, _2 are a key.") := rfl

/-- Claim C9: a Check constructed without an engine-side handle creates the
engine check with an empty display name and an empty cache method,
regardless of the displayName argument, which is stored only on the wrapper
as _displayName and never forwarded to the engine: the stored engine handle
is freshJvmCheck df, which does not depend on the displayName argument at
all. -/
theorem engine_check_not_given_displayName (df : DataFrame) (dn : Option String) :
    (Check.init df dn none).jvmCheckAttr = .ok (freshJvmCheck df)
    ∧ (freshJvmCheck df).displayName = none
    ∧ (freshJvmCheck df).cacheMethod = none
    ∧ (Check.init df dn none).getattr "_displayName" = some (PyVal.optStrVal dn) :=
  ⟨rfl, rfl, rfl, rfl⟩

/-- Claim C10: reading the cacheMethod property of any Check built by the
public constructor raises AttributeError, because __init__ assigns only
_dataFrame, _jvm, _displayName and jvmCheck and the backing field
_cacheMethod is never assigned by any operation. -/
theorem cacheMethod_raises_attributeError (df : DataFrame) (dn : Option String)
    (jco : Option JvmCheck) :
    (Check.init df dn jco).cacheMethod =
      .error (PyError.attributeError "_cacheMethod") := rfl

end DDQ
